import Mathlib

/-!
Verification development for the Jet_Reconstruction repository.

The repository holds four C++ programs:
  src/jetRecoExp.cpp        (base-jets reco pipeline, five gated stages)
  src/jetRecoExp_plots.cpp  (plots companion for the base-jets pipeline)
  src/jetRecoGroom.cpp      (large-radius reco pipeline, five gated stages)
  src/jetRecoGroom_plots.cpp (plots companion for the large-radius pipeline)

This file shallowly embeds the event-level selection, gating, filling and
presentation logic of those programs.  Momentum-like quantities are embedded
as rationals; external library services (columnar reader, histogram storage,
FastJet clustering) are represented by the data they deliver to the call
sites, or by abstract function parameters where the program only forwards
their results.
-/

namespace JetReco

/-! ## C standard library atol, as called by all four programs on argv[2] -/

/-- Accumulate the leading run of decimal digits, as the C library atol does
after sign handling; stops at the first non-digit. -/
def atolDigits : List Char → Int → Int
  | [], acc => acc
  | c :: cs, acc =>
      if c.isDigit then atolDigits cs (acc * 10 + ((c.toNat : Int) - 48))
      else acc

/-- Handle an optional single leading sign, then read digits. -/
def atolSigned : List Char → Int
  | [] => 0
  | c :: cs =>
      if c = '-' then - atolDigits cs 0
      else if c = '+' then atolDigits cs 0
      else atolDigits (c :: cs) 0

/-- C library atol semantics: skip leading whitespace, optional sign, then a
digit run; a string with no leading digits parses to 0. -/
def atol (s : String) : Int :=
  atolSigned (s.data.dropWhile (fun c => c.isWhitespace))

/-! ## Stage gate shared by all four programs -/

/-- The guard written at every stage-gated block in the four programs:
the C expression reading (not stepNum) or (stepNum >= k). -/
def stepGuard (stepNum k : Int) : Prop := stepNum = 0 ∨ k ≤ stepNum

instance (s k : Int) : Decidable (stepGuard s k) := by
  unfold stepGuard; infer_instance

/-- Argument validation shared by all four main functions:
if (stepNum < 0 or stepNum > 5) return 1. -/
def stepNumRejected (stepNum : Int) : Prop := stepNum < 0 ∨ 5 < stepNum

instance (s : Int) : Decidable (stepNumRejected s) := by
  unfold stepNumRejected; infer_instance

/-! ## jetRecoExp.cpp: event record and per-event fills -/

/-- Per-event input columns read by jetRecoExp.cpp, with the local variable
names used in main. -/
structure ExpEvent where
  mu_average : ℚ
  NPV : ℕ
  EventWeight : ℚ
  RecoJet_pt : List ℚ
  RecoJet_eta : List ℚ
  RecoJet_phi : List ℚ
  RecoJet_m : List ℚ
  TruthJet_pt : List ℚ
  TruthJet_eta : List ℚ
  TruthJet_phi : List ℚ
  TruthJet_m : List ℚ
  RecoJet_jvf : List ℚ
  TrackJet_pt : List ℚ
  TrackJet_eta : List ℚ
  TrackJet_phi : List ℚ
  TrackJet_m : List ℚ
deriving DecidableEq

/-- Histogram objects of jetRecoExp.cpp that receive Fill calls in the
implemented stages (steps 1 and 2); named after the source variables. -/
inductive ExpHist where
  | mu
  | npv
  | mu_npv
  | reco_pt_nw
  | reco_pt
  | truth_pt_nw
  | truth_pt
deriving DecidableEq

/-- ROOT name of each filled jetRecoExp histogram, exactly as constructed. -/
def expHistName : ExpHist → String
  | .mu => "Step1_mu"
  | .npv => "Step1_npv"
  | .mu_npv => "Step1_mu_npv"
  | .reco_pt_nw => "Step2_RecoJet_pt_noweight"
  | .reco_pt => "Step2_RecoJet_pt"
  | .truth_pt_nw => "Step2_TruthJet_pt_noweight"
  | .truth_pt => "Step2_TruthJet_pt"

/-- One histogram Fill call: target histogram, x value, optional y value for
2D fills, and the fill weight (ROOT Fill with one argument weights by 1). -/
structure EFill where
  hist : ExpHist
  x : ℚ
  y : Option ℚ
  w : ℚ
deriving DecidableEq

/-- Step 1 fill block body of jetRecoExp.cpp (lines 217-223). -/
def expStep1Fills (e : ExpEvent) : List EFill :=
  [⟨.mu, e.mu_average, none, 1⟩,
   ⟨.npv, (e.NPV : ℚ), none, 1⟩,
   ⟨.mu_npv, e.mu_average, some (e.NPV : ℚ), 1⟩]

/-- Step 2 fill block body of jetRecoExp.cpp (lines 233-246): leading-jet pT
fills guarded by collection non-emptiness. -/
def expStep2Fills (e : ExpEvent) : List EFill :=
  (match e.RecoJet_pt with
   | [] => []
   | p :: _ => [⟨.reco_pt_nw, p, none, 1⟩, ⟨.reco_pt, p, none, e.EventWeight⟩]) ++
  (match e.TruthJet_pt with
   | [] => []
   | p :: _ => [⟨.truth_pt_nw, p, none, 1⟩, ⟨.truth_pt, p, none, e.EventWeight⟩])

/-- All fills jetRecoExp.cpp performs for one event at a given step number.
The step 3, 4 and 5 blocks exist and are gated identically, but their bodies
are unimplemented TODO stubs that fill nothing. -/
def expEventFills (s : Int) (e : ExpEvent) : List EFill :=
  (if stepGuard s 1 then expStep1Fills e else []) ++
  (if stepGuard s 2 then expStep2Fills e else []) ++
  (if stepGuard s 3 then [] else []) ++
  (if stepGuard s 4 then [] else []) ++
  (if stepGuard s 5 then [] else [])

/-- Whether a histogram name ends in the given suffix (the plots and
weighting conventions of the programs distinguish names ending in
_noweight); character-list suffix test. -/
def nameEndsWith (s suffix : String) : Bool :=
  List.isSuffixOf suffix.data s.data

/-- Fills accumulated over the whole event loop, in input record order. -/
def expRunFills (s : Int) : List ExpEvent → List EFill
  | [] => []
  | e :: es => expEventFills s e ++ expRunFills s es

/-- Number of fills an event delivers to one histogram. -/
def fillCountE (l : List EFill) (h : ExpHist) : ℕ :=
  (l.filter (fun f => f.hist = h)).length

/-- The fills whose target histogram name ends in _noweight. -/
def noweightFillsE (l : List EFill) : List EFill :=
  l.filter (fun f => nameEndsWith (expHistName f.hist) "_noweight")

/-- Histograms that jetRecoExp fills with the event weight as second Fill
argument (the weighted fills of steps 1 and 2). -/
def expWeightedHists : List ExpHist := [.reco_pt, .truth_pt]

/-- Replace the EventWeight column of each event by an arbitrary function of
the event, leaving every other column unchanged. -/
def reweightExp (w : ExpEvent → ℚ) (e : ExpEvent) : ExpEvent :=
  { e with EventWeight := w e }

/-! ## jetRecoExp.cpp: branch wiring, histogram creation and writing -/

/-- Input tree branches switched on and bound by the stage-k wiring block of
jetRecoExp.cpp; stages 3 and 5 add no branches. -/
def expStageBranchNames : Int → List String
  | 1 => ["mu_average", "NPV"]
  | 2 => ["EventWeight",
          "RecoJets_R4_pt", "RecoJets_R4_eta", "RecoJets_R4_phi", "RecoJets_R4_m",
          "TruthJets_R4_pt", "TruthJets_R4_eta", "TruthJets_R4_phi", "TruthJets_R4_m"]
  | 4 => ["RecoJets_R4_jvf",
          "TrackJets_R4_pt", "TrackJets_R4_eta", "TrackJets_R4_phi", "TrackJets_R4_m"]
  | _ => []

/-- Branches activated for a run: the three wiring blocks of jetRecoExp.cpp
(stages 1, 2 and 4), each behind the stage guard. -/
def expActiveBranches (s : Int) : List String :=
  (if stepGuard s 1 then expStageBranchNames 1 else []) ++
  (if stepGuard s 2 then expStageBranchNames 2 else []) ++
  (if stepGuard s 4 then expStageBranchNames 4 else [])

/-- ROOT names of the histograms belonging to stage k of jetRecoExp.cpp, in
construction order (creation block, lines 146-194). -/
def expStageHistNames : Int → List String
  | 1 => ["Step1_mu", "Step1_npv", "Step1_mu_npv"]
  | 2 => ["Step2_RecoJet_pt_noweight", "Step2_RecoJet_pt",
          "Step2_TruthJet_pt_noweight", "Step2_TruthJet_pt"]
  | 3 => ["Step3_RecoJet_njets_lowmu", "Step3_RecoJet_njets_midmu", "Step3_RecoJet_njets_highmu",
          "Step3_TruthJet_njets_lowmu", "Step3_TruthJet_njets_midmu", "Step3_TruthJet_njets_highmu",
          "Step3_RecoJets_njets_2D", "Step3_TruthJets_njets_2D"]
  | 4 => ["Step4_RecoJet_jvf_pt20", "Step4_RecoJet_jvf_pt60", "Step4_RecoJet_jvf_pt100",
          "Step4_RecoJet_pt_jvf", "Step4_TrackJet_pt",
          "Step4_TrackJet_njets_lowmu", "Step4_TrackJet_njets_midmu", "Step4_TrackJet_njets_highmu",
          "Step4_TrackJets_njets_2D"]
  | 5 => ["Step5_DRtruth_reco", "Step5_DRtruth_reco_jvf", "Step5_DRtruth_track",
          "Step5_response_reco_pt20", "Step5_response_reco_pt100", "Step5_response_reco_pt1000",
          "Step5_response_track_pt20", "Step5_response_track_pt100", "Step5_response_track_pt1000"]
  | _ => []

/-- Every histogram jetRecoExp.cpp constructs.  The creation block is not
behind any stage guard: all five stages of histograms are constructed on
every run, whatever the step number. -/
def expAllHistNames : List String :=
  expStageHistNames 1 ++ expStageHistNames 2 ++ expStageHistNames 3 ++
  expStageHistNames 4 ++ expStageHistNames 5

/-- Stages whose branch-wiring block runs (only stages 1, 2 and 4 have one). -/
def expBranchStages (s : Int) : List Int :=
  (if stepGuard s 1 then [1] else []) ++
  (if stepGuard s 2 then [2] else []) ++
  (if stepGuard s 4 then [4] else [])

/-- Stages whose per-event fill block executes inside the event loop. -/
def expFillStages (s : Int) : List Int :=
  (if stepGuard s 1 then [1] else []) ++
  (if stepGuard s 2 then [2] else []) ++
  (if stepGuard s 3 then [3] else []) ++
  (if stepGuard s 4 then [4] else []) ++
  (if stepGuard s 5 then [5] else [])

/-- Stages whose Write block executes when saving the output file. -/
def expWriteStages (s : Int) : List Int :=
  (if stepGuard s 1 then [1] else []) ++
  (if stepGuard s 2 then [2] else []) ++
  (if stepGuard s 3 then [3] else []) ++
  (if stepGuard s 4 then [4] else []) ++
  (if stepGuard s 5 then [5] else [])

/-- Histogram names written to the output file for a run. -/
def expWrittenHists (s : Int) : List String :=
  ((expWriteStages s).map expStageHistNames).flatten

/-- Run-level observable plan of jetRecoExp.cpp: which branches get wired,
which histograms get constructed, which fill blocks run per event and which
histograms get written. -/
structure ExpPlan where
  activatedBranches : List String
  createdHists : List String
  fillStages : List Int
  writtenHists : List String
deriving DecidableEq

/-- Control skeleton of jetRecoExp main: the step number is validated first;
an out-of-range value exits with code 1 (modelled as none) before any branch
wiring, histogram creation, event processing or writing. -/
def jetRecoExpPlan (stepNum : Int) : Option ExpPlan :=
  if stepNumRejected stepNum then none
  else some ⟨expActiveBranches stepNum, expAllHistNames,
             expFillStages stepNum, expWrittenHists stepNum⟩

/-! ## jetRecoGroom.cpp: event record and per-event fills -/

/-- Per-event input columns read by jetRecoGroom.cpp, with the local
variable names used in main. -/
structure GroomEvent where
  mu_average : ℚ
  NPV : ℕ
  EventWeight : ℚ
  jet_R10_ungroom_pt : List ℚ
  jet_R10_ungroom_m : List ℚ
  jet_R10_trimmed_pt : List ℚ
  jet_R10_trimmed_m : List ℚ
  cluster_pt : List ℚ
  cluster_eta : List ℚ
  cluster_phi : List ℚ
  cluster_m : List ℚ
deriving DecidableEq

/-- Histogram objects of jetRecoGroom.cpp that receive Fill calls in the
implemented stages (steps 1, 2 and 3); named after the source variables. -/
inductive GroomHist where
  | mu
  | npv
  | ungroom_pt_nw
  | ungroom_pt
  | trimmed_pt
  | ungroom_m
  | trimmed_m
  | myungroom_pt_nw
  | myungroom_pt
  | mytrimmed_pt_nw
  | mytrimmed_pt
deriving DecidableEq

/-- ROOT name of each filled jetRecoGroom histogram, exactly as constructed. -/
def groomHistName : GroomHist → String
  | .mu => "Step1_mu"
  | .npv => "Step1_npv"
  | .ungroom_pt_nw => "Step2_UngroomPt_noweight"
  | .ungroom_pt => "Step2_UngroomPt"
  | .trimmed_pt => "Step2_TrimmedPt"
  | .ungroom_m => "Step2_UngroomMass"
  | .trimmed_m => "Step2_TrimmedMass"
  | .myungroom_pt_nw => "Step3_MyUngroomPt_noweight"
  | .myungroom_pt => "Step3_MyUngroomPt"
  | .mytrimmed_pt_nw => "Step3_MyTrimmedPt_noweight"
  | .mytrimmed_pt => "Step3_MyTrimmedPt"

/-- One histogram Fill call of jetRecoGroom (all its fills are 1D). -/
structure GFill where
  hist : GroomHist
  x : ℚ
  w : ℚ
deriving DecidableEq

/-- Pseudorapidity-mass four-vector handed to the clustering library for one
calorimeter cluster. -/
structure FourVec where
  pt : ℚ
  eta : ℚ
  phi : ℚ
  m : ℚ
deriving DecidableEq

/-- A jet returned by the external clustering or grooming tools; the program
only reads its transverse momentum in the implemented fills. -/
structure PseudoJet where
  pt : ℚ
deriving DecidableEq

/-- Step 1 fill block body of jetRecoGroom.cpp (lines 247-251). -/
def groomStep1Fills (s : Int) (e : GroomEvent) : List GFill :=
  if stepGuard s 1 then [⟨.mu, e.mu_average, 1⟩, ⟨.npv, (e.NPV : ℚ), 1⟩] else []

/-- The mass-fill idiom of the step-2 block: when the leading pT exceeds the
400 GeV floor (400000 in MeV units), fill the target mass histogram with the
leading mass entry (an at(0) access that aborts on an empty collection,
modelled as none); below or at the floor, no fill. -/
def massGateFill (target : GroomHist) (pt : ℚ) (masses : List ℚ) (w : ℚ) :
    Option (List GFill) :=
  if (400000 : ℚ) < pt then
    match masses.head? with
    | none => none
    | some m0 => some [⟨target, m0, w⟩]
  else some []

/-- Step 2 fill block of jetRecoGroom.cpp (lines 262-275).  The block is
entered only when the ungroomed collection is non-empty; inside it the
trimmed pT, and the mass values behind the 400 GeV pT floors, are fetched
with vector at(0), which throws and aborts the run when that collection is
empty (modelled as none). -/
def groomStep2Fills (s : Int) (e : GroomEvent) : Option (List GFill) :=
  if stepGuard s 2 then
    match e.jet_R10_ungroom_pt with
    | [] => some []
    | upt0 :: _ =>
      match e.jet_R10_trimmed_pt.head? with
      | none => none
      | some tpt0 =>
        match massGateFill .ungroom_m upt0 e.jet_R10_ungroom_m e.EventWeight with
        | none => none
        | some massU =>
          match massGateFill .trimmed_m tpt0 e.jet_R10_trimmed_m e.EventWeight with
          | none => none
          | some massT =>
            some ([⟨.ungroom_pt_nw, upt0, 1⟩,
                   ⟨.ungroom_pt, upt0, e.EventWeight⟩,
                   ⟨.trimmed_pt, tpt0, e.EventWeight⟩] ++ massU ++ massT)
  else some []

/-- Cluster conversion loop of step 3 (lines 288-296): iterates over
cluster_pt and indexes the eta, phi and mass columns with at(iClus), which
throws when one of those columns is shorter (modelled as none). -/
def groomClusters (e : GroomEvent) : Option (List FourVec) :=
  if e.cluster_pt.length ≤ e.cluster_eta.length ∧
     e.cluster_pt.length ≤ e.cluster_phi.length ∧
     e.cluster_pt.length ≤ e.cluster_m.length then
    some ((((e.cluster_pt.zip e.cluster_eta).zip e.cluster_phi).zip e.cluster_m).map
      (fun x => ⟨x.1.1.1, x.1.1.2, x.1.2, x.2⟩))
  else none

/-- The fills of the step-3 comparison for a rebuilt jet collection: nothing
when no jet came back, otherwise the leading ungroomed and trimmed pT fills
(source lines 303-314). -/
def leadingJetFills (trimmer : PseudoJet → PseudoJet) (w : ℚ) :
    List PseudoJet → List GFill
  | [] => []
  | ungroomed :: _ =>
      [⟨.myungroom_pt_nw, ungroomed.pt, 1⟩,
       ⟨.myungroom_pt, ungroomed.pt, w⟩,
       ⟨.mytrimmed_pt_nw, (trimmer ungroomed).pt, 1⟩,
       ⟨.mytrimmed_pt, (trimmer ungroomed).pt, w⟩]

/-- Step 3 fill block of jetRecoGroom.cpp (lines 283-360): anti-kt R=1.0
clustering and the trimming transformer are external FastJet services and
enter as function parameters buildJets and trimmer.  The step 4 and step 5
blocks are nested inside this block but their bodies are unimplemented TODO
stubs that fill nothing. -/
def groomStep3Fills (buildJets : List FourVec → List PseudoJet)
    (trimmer : PseudoJet → PseudoJet) (s : Int) (e : GroomEvent) :
    Option (List GFill) :=
  if stepGuard s 3 then
    match groomClusters e with
    | none => none
    | some clusters =>
      some (leadingJetFills trimmer e.EventWeight (buildJets clusters))
  else some []

/-- All fills jetRecoGroom.cpp performs for one event at a given step
number; none models an out-of-range vector access aborting the run. -/
def groomEventFills (buildJets : List FourVec → List PseudoJet)
    (trimmer : PseudoJet → PseudoJet) (s : Int) (e : GroomEvent) :
    Option (List GFill) :=
  match groomStep2Fills s e with
  | none => none
  | some f2 =>
    match groomStep3Fills buildJets trimmer s e with
    | none => none
    | some f3 => some (groomStep1Fills s e ++ f2 ++ f3)

/-- Number of fills an event delivers to one jetRecoGroom histogram. -/
def fillCountG (l : List GFill) (h : GroomHist) : ℕ :=
  (l.filter (fun f => f.hist = h)).length

/-- The jetRecoGroom fills whose target histogram name ends in _noweight. -/
def noweightFillsG (l : List GFill) : List GFill :=
  l.filter (fun f => nameEndsWith (groomHistName f.hist) "_noweight")

/-- Histograms that jetRecoGroom fills with the event weight as second Fill
argument. -/
def groomWeightedHists : List GroomHist :=
  [.ungroom_pt, .trimmed_pt, .ungroom_m, .trimmed_m, .myungroom_pt, .mytrimmed_pt]

/-! ## jetRecoGroom.cpp: branch wiring, histogram creation and writing -/

/-- Constant selecting which collection the program reads (source line 82). -/
def isTruth : Bool := false

/-- Jet collection name prefix chosen from isTruth (source line 83). -/
def jetTypeString : String := if !isTruth then "RecoJets" else "TruthJets"

/-- Constituent collection name prefix chosen from isTruth (source line 84). -/
def inputTypeString : String := if !isTruth then "Clusters" else "Particles"

/-- Input tree branches switched on by the stage-k wiring block of
jetRecoGroom.cpp; stages 4 and 5 add no branches. -/
def groomStageBranchNames : Int → List String
  | 1 => ["mu_average", "NPV"]
  | 2 => ["EventWeight",
          jetTypeString ++ "_R10_pt", jetTypeString ++ "_R10_m",
          jetTypeString ++ "_R10_Trimmed_pt", jetTypeString ++ "_R10_Trimmed_m"]
  | 3 => [inputTypeString ++ "_pt", inputTypeString ++ "_eta",
          inputTypeString ++ "_phi", inputTypeString ++ "_m"]
  | _ => []

/-- Branches activated for a jetRecoGroom run (wiring blocks for stages 1, 2
and 3, each behind the stage guard). -/
def groomActiveBranches (s : Int) : List String :=
  (if stepGuard s 1 then groomStageBranchNames 1 else []) ++
  (if stepGuard s 2 then groomStageBranchNames 2 else []) ++
  (if stepGuard s 3 then groomStageBranchNames 3 else [])

/-- ROOT names of the histograms belonging to stage k of jetRecoGroom.cpp,
in construction order (creation block, lines 149-203). -/
def groomStageHistNames : Int → List String
  | 1 => ["Step1_mu", "Step1_npv"]
  | 2 => ["Step2_UngroomPt_noweight", "Step2_UngroomPt", "Step2_TrimmedPt",
          "Step2_UngroomMass", "Step2_TrimmedMass"]
  | 3 => ["Step3_MyUngroomPt_noweight", "Step3_MyUngroomPt",
          "Step3_MyTrimmedPt_noweight", "Step3_MyTrimmedPt"]
  | 4 => ["Step4_MyPrunedPt", "Step4_MyPrunedMass",
          "Step4_MySDPt", "Step4_MySDMass",
          "Step4_MyRSDPt", "Step4_MyRSDMass",
          "Step4_MyBUSDPt", "Step4_MyBUSDMass",
          "Step4_MyBUSDTPt", "Step4_MyBUSDTMass"]
  | 5 => ["Step5_Ungroomed_D2", "Step5_Ungroomed_Tau32",
          "Step5_Trimmed_D2", "Step5_Trimmed_Tau32",
          "Step5_Pruned_D2", "Step5_Pruned_Tau32",
          "Step5_SD_D2", "Step5_SD_Tau32",
          "Step5_RSD_D2", "Step5_RSD_Tau32",
          "Step5_BUSD_D2", "Step5_BUSD_Tau32",
          "Step5_BUSDT_D2", "Step5_BUSDT_Tau32"]
  | _ => []

/-- Every histogram jetRecoGroom.cpp constructs.  As in jetRecoExp, the
creation block carries no stage guard: all five stages of histograms are
constructed on every run. -/
def groomAllHistNames : List String :=
  groomStageHistNames 1 ++ groomStageHistNames 2 ++ groomStageHistNames 3 ++
  groomStageHistNames 4 ++ groomStageHistNames 5

/-- Stages whose Write block executes when saving the jetRecoGroom output. -/
def groomWriteStages (s : Int) : List Int :=
  (if stepGuard s 1 then [1] else []) ++
  (if stepGuard s 2 then [2] else []) ++
  (if stepGuard s 3 then [3] else []) ++
  (if stepGuard s 4 then [4] else []) ++
  (if stepGuard s 5 then [5] else [])

/-- Histogram names written to the jetRecoGroom output file for a run. -/
def groomWrittenHists (s : Int) : List String :=
  ((groomWriteStages s).map groomStageHistNames).flatten

/-- Stages of jetRecoGroom whose per-event fill block executes.  The step 4
block is nested inside the step 3 block and the step 5 block inside step 4,
so their execution requires every enclosing guard as well. -/
def groomFillStages (s : Int) : List Int :=
  (if stepGuard s 1 then [1] else []) ++
  (if stepGuard s 2 then [2] else []) ++
  (if stepGuard s 3 then
    [3] ++ (if stepGuard s 4 then
      [4] ++ (if stepGuard s 5 then [5] else []) else []) else [])

/-- Control skeleton of jetRecoGroom main, mirroring jetRecoExpPlan. -/
def jetRecoGroomPlan (stepNum : Int) : Option ExpPlan :=
  if stepNumRejected stepNum then none
  else some ⟨groomActiveBranches stepNum, groomAllHistNames,
             groomFillStages stepNum, groomWrittenHists stepNum⟩

/-! ## Plots programs: histogram objects and presentation transforms -/

/-- A retrieved 1D histogram as the plots programs see it: a name, an axis
with nbins bins between xmin and xmax, and the accumulated bin contents. -/
structure TH1 where
  name : String
  nbins : ℕ
  xmin : ℚ
  xmax : ℚ
  binContents : List ℚ
deriving DecidableEq

/-- scaleMeVToGeV of both plots programs: read the axis limits and set them
to their values divided by 1.e3; nothing else is touched. -/
def scaleMeVToGeV (hist : TH1) : TH1 :=
  { hist with xmin := hist.xmin / 1000, xmax := hist.xmax / 1000 }

/-- ROOT TH1 Integral as the plots programs use it: the sum of the bin
contents. -/
def integral (hist : TH1) : ℚ := hist.binContents.sum

/-- ROOT TH1 Scale: multiply every bin content by a constant. -/
def scaleHist (c : ℚ) (hist : TH1) : TH1 :=
  { hist with binContents := hist.binContents.map (fun v => c * v) }

/-- The normalization idiom of both plots programs, with no guard against a
zero integral: hist Scale of 1.0 divided by hist Integral. -/
def normalizeToUnitIntegral (hist : TH1) : TH1 :=
  scaleHist (1 / integral hist) hist

/-- Histogram names that jetRecoExp_plots normalizes to unit integral. -/
def expPlotsNormalizedHists : List String :=
  ["Step3_RecoJet_njets_highmu", "Step3_RecoJet_njets_midmu", "Step3_RecoJet_njets_lowmu",
   "Step3_TruthJet_njets_highmu", "Step3_TruthJet_njets_midmu", "Step3_TruthJet_njets_lowmu",
   "Step4_RecoJet_jvf_pt20", "Step4_RecoJet_jvf_pt60", "Step4_RecoJet_jvf_pt100",
   "Step4_TrackJet_njets_highmu", "Step4_TrackJet_njets_midmu", "Step4_TrackJet_njets_lowmu",
   "Step5_DRtruth_reco", "Step5_DRtruth_reco_jvf", "Step5_DRtruth_track",
   "Step5_response_reco_pt20", "Step5_response_reco_pt100", "Step5_response_reco_pt1000",
   "Step5_response_track_pt20", "Step5_response_track_pt100", "Step5_response_track_pt1000"]

/-- Histogram names that jetRecoGroom_plots normalizes to unit integral. -/
def groomPlotsNormalizedHists : List String :=
  ["Step2_UngroomMass", "Step2_TrimmedMass",
   "Step4_MyPrunedMass", "Step4_MySDMass", "Step4_MyRSDMass",
   "Step4_MyBUSDMass", "Step4_MyBUSDTMass",
   "Step5_Ungroomed_D2", "Step5_Trimmed_D2", "Step5_Pruned_D2", "Step5_SD_D2",
   "Step5_RSD_D2", "Step5_BUSD_D2", "Step5_BUSDT_D2",
   "Step5_Ungroomed_Tau32", "Step5_Trimmed_Tau32", "Step5_Pruned_Tau32", "Step5_SD_Tau32",
   "Step5_RSD_Tau32", "Step5_BUSD_Tau32", "Step5_BUSDT_Tau32"]

/-! ## jetRecoExp_plots.cpp: retrieval checks and rendering dereferences -/

/-- Histogram pointers whose nullness the stage-k retrieval block of
jetRecoExp_plots.cpp tests before its return 1 (lines 115, 130-131, 154-156,
181-183, 208-210).  Each entry pairs the stage whose block retrieved the
pointer with the histogram name.  The stage-4 check (source lines 181-183)
tests the step-2 pointer hist_truth_pt and omits the step-4 pointers
hist_reco_pt_jvf and hist_track_pt, exactly as written. -/
def expPlotsCheckedPtrs : Int → List (Int × String)
  | 1 => [(1, "Step1_mu"), (1, "Step1_npv"), (1, "Step1_mu_npv")]
  | 2 => [(2, "Step2_RecoJet_pt_noweight"), (2, "Step2_RecoJet_pt"),
          (2, "Step2_TruthJet_pt_noweight"), (2, "Step2_TruthJet_pt")]
  | 3 => [(3, "Step3_RecoJet_njets_lowmu"), (3, "Step3_RecoJet_njets_midmu"),
          (3, "Step3_RecoJet_njets_highmu"),
          (3, "Step3_TruthJet_njets_lowmu"), (3, "Step3_TruthJet_njets_midmu"),
          (3, "Step3_TruthJet_njets_highmu"),
          (3, "Step3_RecoJets_njets_2D"), (3, "Step3_TruthJets_njets_2D")]
  | 4 => [(4, "Step4_RecoJet_jvf_pt20"), (4, "Step4_RecoJet_jvf_pt60"),
          (4, "Step4_RecoJet_jvf_pt100"),
          (4, "Step4_TrackJet_njets_lowmu"), (4, "Step4_TrackJet_njets_midmu"),
          (4, "Step4_TrackJet_njets_highmu"),
          (2, "Step2_TruthJet_pt"), (4, "Step4_TrackJets_njets_2D")]
  | 5 => [(5, "Step5_DRtruth_reco"), (5, "Step5_DRtruth_reco_jvf"), (5, "Step5_DRtruth_track"),
          (5, "Step5_response_reco_pt20"), (5, "Step5_response_reco_pt100"),
          (5, "Step5_response_reco_pt1000"),
          (5, "Step5_response_track_pt20"), (5, "Step5_response_track_pt100"),
          (5, "Step5_response_track_pt1000")]
  | _ => []

/-- Histogram pointers dereferenced by the stage-k rendering block of
jetRecoExp_plots.cpp (lines 225-663), paired with the stage whose retrieval
block set them.  Stage 4 dereferences hist_reco_pt_jvf and hist_track_pt,
which the stage-4 retrieval check never examined. -/
def expPlotsRenderPtrs : Int → List (Int × String)
  | 1 => [(1, "Step1_mu"), (1, "Step1_npv"), (1, "Step1_mu_npv")]
  | 2 => [(2, "Step2_TruthJet_pt_noweight"), (2, "Step2_RecoJet_pt_noweight"),
          (2, "Step2_TruthJet_pt"), (2, "Step2_RecoJet_pt")]
  | 3 => [(3, "Step3_RecoJet_njets_highmu"), (3, "Step3_RecoJet_njets_midmu"),
          (3, "Step3_RecoJet_njets_lowmu"),
          (3, "Step3_TruthJet_njets_highmu"), (3, "Step3_TruthJet_njets_midmu"),
          (3, "Step3_TruthJet_njets_lowmu"),
          (3, "Step3_RecoJets_njets_2D"), (3, "Step3_TruthJets_njets_2D")]
  | 4 => [(4, "Step4_RecoJet_jvf_pt20"), (4, "Step4_RecoJet_jvf_pt60"),
          (4, "Step4_RecoJet_jvf_pt100"),
          (2, "Step2_TruthJet_pt"), (2, "Step2_RecoJet_pt"), (4, "Step4_RecoJet_pt_jvf"),
          (4, "Step4_TrackJet_njets_highmu"), (4, "Step4_TrackJet_njets_midmu"),
          (4, "Step4_TrackJet_njets_lowmu"), (4, "Step4_TrackJets_njets_2D"),
          (4, "Step4_TrackJet_pt")]
  | 5 => [(5, "Step5_DRtruth_reco"), (5, "Step5_DRtruth_reco_jvf"), (5, "Step5_DRtruth_track"),
          (5, "Step5_response_reco_pt20"), (5, "Step5_response_reco_pt100"),
          (5, "Step5_response_reco_pt1000"),
          (5, "Step5_response_track_pt20"), (5, "Step5_response_track_pt100"),
          (5, "Step5_response_track_pt1000")]
  | _ => []

/-- A histogram pointer of jetRecoExp_plots is non-null exactly when the
stage that retrieves it was requested and the name exists in the input file
(getHist returns nullptr for an absent name after printing a message that
names it). -/
def ptrNonNull (s : Int) (present : List String) (p : Int × String) : Bool :=
  decide (stepGuard s p.1) && present.contains p.2

/-- Whether some requested retrieval block of jetRecoExp_plots takes its
return 1 branch: a tested pointer is null. -/
def expPlotsRetrieveFails (s : Int) (present : List String) : Bool :=
  [1, 2, 3, 4, 5].any (fun k =>
    decide (stepGuard s k) &&
      (expPlotsCheckedPtrs k).any (fun p => !ptrNonNull s present p))

/-- Whether the rendering phase of jetRecoExp_plots dereferences a null
histogram pointer in some requested stage block. -/
def expPlotsRenderCrashes (s : Int) (present : List String) : Bool :=
  [1, 2, 3, 4, 5].any (fun k =>
    decide (stepGuard s k) &&
      (expPlotsRenderPtrs k).any (fun p => !ptrNonNull s present p))

/-- Observable outcomes of a jetRecoExp_plots run. -/
inductive PlotsOutcome where
  | exitUsage
  | exitMissing
  | crash
  | completed
deriving DecidableEq

/-- Control skeleton of jetRecoExp_plots main after the file-name checks:
validate the step number, run the guarded retrieval blocks with their
null-pointer checks (exit code 1 when one fails), then render; dereferencing
a null pointer while rendering aborts the process without reaching a clean
exit. -/
def expPlotsMain (stepNum : Int) (present : List String) : PlotsOutcome :=
  if stepNumRejected stepNum then .exitUsage
  else if expPlotsRetrieveFails stepNum present then .exitMissing
  else if expPlotsRenderCrashes stepNum present then .crash
  else .completed

/-- Stages of the jetRecoExp_plots rendering phase that emit pages, each
behind the stage guard (lines 225, 262, 320, 417, 545). -/
def expPlotsRenderStages (s : Int) : List Int :=
  (if stepGuard s 1 then [1] else []) ++
  (if stepGuard s 2 then [2] else []) ++
  (if stepGuard s 3 then [3] else []) ++
  (if stepGuard s 4 then [4] else []) ++
  (if stepGuard s 5 then [5] else [])

/-- Stages of the jetRecoGroom_plots rendering phase that emit pages, each
behind the stage guard (lines 231, 258, 331, 408, 538). -/
def groomPlotsRenderStages (s : Int) : List Int :=
  (if stepGuard s 1 then [1] else []) ++
  (if stepGuard s 2 then [2] else []) ++
  (if stepGuard s 3 then [3] else []) ++
  (if stepGuard s 4 then [4] else []) ++
  (if stepGuard s 5 then [5] else [])

/-! ## Concrete inputs used by the claim theorems and witnesses -/

/-- Input histogram set for jetRecoExp_plots that holds every histogram the
reco program writes for a full run except Step4_RecoJet_pt_jvf. -/
def presentMissingPtJvf : List String :=
  expAllHistNames.erase "Step4_RecoJet_pt_jvf"

/-- The single synthetic event of the end-to-end stage-5 scenario: one truth
jet of 50 GeV (50000 MeV, eta 0, phi 0, mass 5 GeV), one reco jet of 45 GeV
(eta 0.05, phi 0.05, mass 4 GeV), event weight 2. -/
def scenarioEvent : ExpEvent :=
  { mu_average := 20, NPV := 10, EventWeight := 2,
    RecoJet_pt := [45000], RecoJet_eta := [1/20], RecoJet_phi := [1/20], RecoJet_m := [4000],
    TruthJet_pt := [50000], TruthJet_eta := [0], TruthJet_phi := [0], TruthJet_m := [5000],
    RecoJet_jvf := [], TrackJet_pt := [], TrackJet_eta := [], TrackJet_phi := [],
    TrackJet_m := [] }

/-- An event with no reco jets and one truth jet, used as witness input. -/
def emptyRecoEvent : ExpEvent :=
  { mu_average := 30, NPV := 12, EventWeight := 3,
    RecoJet_pt := [], RecoJet_eta := [], RecoJet_phi := [], RecoJet_m := [],
    TruthJet_pt := [60000], TruthJet_eta := [0], TruthJet_phi := [0], TruthJet_m := [6000],
    RecoJet_jvf := [], TrackJet_pt := [], TrackJet_eta := [], TrackJet_phi := [],
    TrackJet_m := [] }

/-- A large-radius event whose leading ungroomed jet sits at 500 GeV and
whose leading trimmed jet sits exactly on the 400 GeV floor. -/
def groomBoundaryEvent : GroomEvent :=
  { mu_average := 40, NPV := 20, EventWeight := 5,
    jet_R10_ungroom_pt := [500000], jet_R10_ungroom_m := [90000],
    jet_R10_trimmed_pt := [400000], jet_R10_trimmed_m := [80000],
    cluster_pt := [], cluster_eta := [], cluster_phi := [], cluster_m := [] }

/-- A trivial clustering stand-in used only to instantiate witnesses: one
jet carrying the scalar sum of the constituent pT values. -/
def sumJets (clusters : List FourVec) : List PseudoJet :=
  [⟨(clusters.map FourVec.pt).sum⟩]

/-- A trivial trimming stand-in used only to instantiate witnesses. -/
def halfTrim (j : PseudoJet) : PseudoJet := ⟨j.pt / 2⟩

/-- A small concrete histogram used by witnesses. -/
def witnessHist : TH1 :=
  { name := "Step5_DRtruth_reco", nbins := 2, xmin := 0, xmax := 1, binContents := [2, 3] }

/-- The step-2 fills jetRecoGroom performs on groomBoundaryEvent: the 500
GeV ungroomed jet passes the 400 GeV mass floor, the trimmed jet at exactly
400 GeV does not. -/
def boundaryFills : List GFill :=
  [⟨.ungroom_pt_nw, 500000, 1⟩, ⟨.ungroom_pt, 500000, 5⟩,
   ⟨.trimmed_pt, 400000, 5⟩, ⟨.ungroom_m, 90000, 5⟩]

/-- Replace the weighted-fill weight of one jetRecoExp fill, leaving
unweighted fills untouched; used to state how a changed event weight
propagates into the fill list. -/
def setEW (w : ℚ) (f : EFill) : EFill :=
  if f.hist ∈ expWeightedHists then { f with w := w } else f

/-- Replace the weighted-fill weight of one jetRecoGroom fill, leaving
unweighted fills untouched. -/
def setGW (w : ℚ) (f : GFill) : GFill :=
  if f.hist ∈ groomWeightedHists then { f with w := w } else f

/-! ## Helper lemmas -/

/-- Filtering a list for a fixed key value keeps at most one element when
the keys are pairwise distinct. -/
theorem length_filter_key_le_one {α κ : Type} [DecidableEq κ] (key : α → κ) :
    ∀ (l : List α), (l.map key).Nodup → ∀ k : κ,
      (l.filter (fun a => key a = k)).length ≤ 1 := by
  intro l hnd k
  induction l with
  | nil => simp
  | cons a l ih =>
    simp only [List.map_cons, List.nodup_cons] at hnd
    rw [List.filter_cons]
    by_cases hk : key a = k
    · have hnil : l.filter (fun a => key a = k) = [] := by
        rw [List.filter_eq_nil_iff]
        intro b hb
        simp only [decide_eq_true_eq]
        intro hbk
        exact hnd.1 (by rw [← hk] at hbk; exact hbk ▸ List.mem_map_of_mem key hb)
      simp [hk, hnil]
    · simp only [hk]
      simpa [hk] using ih hnd.2

/-- Filtering for a key value absent from the key list keeps nothing. -/
theorem filter_key_eq_nil_of_not_mem {α κ : Type} [DecidableEq κ] (key : α → κ)
    (l : List α) (k : κ) (hk : k ∉ l.map key) :
    l.filter (fun a => key a = k) = [] := by
  rw [List.filter_eq_nil_iff]
  intro b hb
  simp only [decide_eq_true_eq]
  intro hbk
  exact hk (hbk ▸ List.mem_map_of_mem key hb)

/-- Multiplying every list entry by a constant multiplies the sum. -/
theorem list_sum_map_mul (c : ℚ) : ∀ l : List ℚ,
    (l.map (fun v => c * v)).sum = c * l.sum := by
  intro l
  induction l with
  | nil => simp
  | cons a l ih => simp [ih]; ring

/-- Histogram targets of the step-2 fills of jetRecoExp, in fill order. -/
theorem expStep2Fills_hist_sublist (e : ExpEvent) :
    List.Sublist ((expStep2Fills e).map EFill.hist)
      [ExpHist.reco_pt_nw, .reco_pt, .truth_pt_nw, .truth_pt] := by
  obtain ⟨mu, npv, ew, rpt, a1, a2, a3, tpt, b1, b2, b3, c1, d1, d2, d3, d4⟩ := e
  cases rpt <;> cases tpt <;> simp [expStep2Fills]

/-- Histogram targets of all fills of jetRecoExp for one event. -/
theorem expEventFills_hist_sublist (s : Int) (e : ExpEvent) :
    List.Sublist ((expEventFills s e).map EFill.hist)
      [ExpHist.mu, .npv, .mu_npv, .reco_pt_nw, .reco_pt, .truth_pt_nw, .truth_pt] := by
  unfold expEventFills
  by_cases h1 : stepGuard s 1 <;> by_cases h2 : stepGuard s 2 <;>
    simp [h1, h2, expStep1Fills]
  · exact expStep2Fills_hist_sublist e
  · exact List.Sublist.trans (expStep2Fills_hist_sublist e)
      (show List.Sublist [ExpHist.reco_pt_nw, .reco_pt, .truth_pt_nw, .truth_pt]
        [ExpHist.mu, .npv, .mu_npv, .reco_pt_nw, .reco_pt, .truth_pt_nw, .truth_pt] by decide)

/-- With an empty reco collection, no step-2 reco histogram is a target. -/
theorem expEventFills_hist_sublist_noreco (s : Int) (e : ExpEvent)
    (hr : e.RecoJet_pt = []) :
    List.Sublist ((expEventFills s e).map EFill.hist)
      [ExpHist.mu, .npv, .mu_npv, .truth_pt_nw, .truth_pt] := by
  unfold expEventFills expStep2Fills
  rw [hr]
  by_cases h1 : stepGuard s 1 <;> by_cases h2 : stepGuard s 2 <;>
    simp [h1, h2, expStep1Fills] <;>
    cases e.TruthJet_pt <;> simp <;> decide

/-- With an empty truth collection, no step-2 truth histogram is a target. -/
theorem expEventFills_hist_sublist_notruth (s : Int) (e : ExpEvent)
    (ht : e.TruthJet_pt = []) :
    List.Sublist ((expEventFills s e).map EFill.hist)
      [ExpHist.mu, .npv, .mu_npv, .reco_pt_nw, .reco_pt] := by
  unfold expEventFills expStep2Fills
  rw [ht]
  by_cases h1 : stepGuard s 1 <;> by_cases h2 : stepGuard s 2 <;>
    simp [h1, h2, expStep1Fills] <;>
    cases e.RecoJet_pt <;> simp <;> decide

/-- Histogram targets of the step-1 fills of jetRecoGroom. -/
theorem groomStep1Fills_hist_sublist (s : Int) (e : GroomEvent) :
    List.Sublist ((groomStep1Fills s e).map GFill.hist) [GroomHist.mu, .npv] := by
  unfold groomStep1Fills
  by_cases h1 : stepGuard s 1 <;> simp [h1]

/-- Shape of the mass-gate result: an empty fill list below or at the
floor, exactly one mass fill above it. -/
theorem massGateFill_shape (t : GroomHist) (pt : ℚ) (ms : List ℚ) (w : ℚ)
    (l : List GFill) (h : massGateFill t pt ms w = some l) :
    (l = [] ∧ ¬ (400000 : ℚ) < pt) ∨
    (∃ m0, l = [⟨t, m0, w⟩] ∧ (400000 : ℚ) < pt) := by
  unfold massGateFill at h
  split at h
  · cases hm : ms.head? with
    | none => rw [hm] at h; cases h
    | some m0 =>
      rw [hm] at h
      simp only [Option.some.injEq] at h
      right
      exact ⟨m0, h.symm, by assumption⟩
  · simp only [Option.some.injEq] at h
    left
    exact ⟨h.symm, by assumption⟩

/-- Unpacking of a successful step-2 block of jetRecoGroom: either the
ungroomed collection was empty and nothing was filled, or the three pT
fills happened followed by the gated mass fills. -/
theorem groomStep2Fills_shape (s : Int) (e : GroomEvent) (f2 : List GFill)
    (h : groomStep2Fills s e = some f2) :
    (f2 = [] ∧ (¬ stepGuard s 2 ∨ e.jet_R10_ungroom_pt = [])) ∨
    (∃ upt0 rest tpt0 massU massT,
      e.jet_R10_ungroom_pt = upt0 :: rest ∧
      e.jet_R10_trimmed_pt.head? = some tpt0 ∧
      massGateFill .ungroom_m upt0 e.jet_R10_ungroom_m e.EventWeight = some massU ∧
      massGateFill .trimmed_m tpt0 e.jet_R10_trimmed_m e.EventWeight = some massT ∧
      f2 = [⟨.ungroom_pt_nw, upt0, 1⟩,
            ⟨.ungroom_pt, upt0, e.EventWeight⟩,
            ⟨.trimmed_pt, tpt0, e.EventWeight⟩] ++ massU ++ massT) := by
  unfold groomStep2Fills at h
  repeat' split at h
  all_goals (try (exact Option.noConfusion h))
  all_goals simp only [Option.some.injEq] at h
  all_goals
    (first
      | exact Or.inl ⟨h.symm, Or.inr (by assumption)⟩
      | exact Or.inl ⟨h.symm, Or.inl (by assumption)⟩
      | exact Or.inr ⟨_, _, _, _, _, by assumption, by assumption, by assumption,
          by assumption, h.symm⟩)

/-- Histogram targets of a successful step-2 block of jetRecoGroom. -/
theorem groomStep2Fills_hist_sublist (s : Int) (e : GroomEvent) (f2 : List GFill)
    (h : groomStep2Fills s e = some f2) :
    List.Sublist (f2.map GFill.hist)
      [GroomHist.ungroom_pt_nw, .ungroom_pt, .trimmed_pt, .ungroom_m, .trimmed_m] := by
  rcases groomStep2Fills_shape s e f2 h with ⟨rfl, _⟩ | ⟨u, r, t, mU, mT, hu, ht, hmu, hmt, rfl⟩
  · simp
  · rcases massGateFill_shape _ _ _ _ _ hmu with ⟨rfl, _⟩ | ⟨m0, rfl, _⟩ <;>
    rcases massGateFill_shape _ _ _ _ _ hmt with ⟨rfl, _⟩ | ⟨m1, rfl, _⟩ <;>
    simp

/-- An empty ungroomed collection makes the step-2 block fill nothing. -/
theorem groomStep2Fills_empty (s : Int) (e : GroomEvent) (f2 : List GFill)
    (hu : e.jet_R10_ungroom_pt = []) (h : groomStep2Fills s e = some f2) :
    f2 = [] := by
  rcases groomStep2Fills_shape s e f2 h with ⟨rfl, _⟩ | ⟨u, r, t, mU, mT, hu2, _, _, _, rfl⟩
  · rfl
  · rw [hu] at hu2; cases hu2

/-- Histogram targets of the rebuilt-jet fills. -/
theorem leadingJetFills_hist_sublist (tr : PseudoJet → PseudoJet) (w : ℚ)
    (jets : List PseudoJet) :
    List.Sublist ((leadingJetFills tr w jets).map GFill.hist)
      [GroomHist.myungroom_pt_nw, .myungroom_pt, .mytrimmed_pt_nw, .mytrimmed_pt] := by
  cases jets <;> simp [leadingJetFills]

/-- Histogram targets of a successful step-3 block of jetRecoGroom. -/
theorem groomStep3Fills_hist_sublist (bj : List FourVec → List PseudoJet)
    (tr : PseudoJet → PseudoJet) (s : Int) (e : GroomEvent) (f3 : List GFill)
    (h : groomStep3Fills bj tr s e = some f3) :
    List.Sublist (f3.map GFill.hist)
      [GroomHist.myungroom_pt_nw, .myungroom_pt, .mytrimmed_pt_nw, .mytrimmed_pt] := by
  unfold groomStep3Fills at h
  repeat' split at h
  all_goals (try (exact Option.noConfusion h))
  all_goals simp only [Option.some.injEq] at h
  all_goals subst h
  · exact leadingJetFills_hist_sublist tr e.EventWeight _
  · simp

/-- Decomposition of a successful jetRecoGroom event: the three stage blocks
each delivered their fill lists, concatenated in program order. -/
theorem groomEventFills_decomp (bj : List FourVec → List PseudoJet)
    (tr : PseudoJet → PseudoJet) (s : Int) (e : GroomEvent) (fills : List GFill)
    (h : groomEventFills bj tr s e = some fills) :
    ∃ f2 f3, groomStep2Fills s e = some f2 ∧ groomStep3Fills bj tr s e = some f3 ∧
      fills = groomStep1Fills s e ++ f2 ++ f3 := by
  unfold groomEventFills at h
  repeat' split at h
  all_goals (try (exact Option.noConfusion h))
  simp only [Option.some.injEq] at h
  exact ⟨_, _, by assumption, by assumption, h.symm⟩

/-- Histogram targets of all fills of jetRecoGroom for one event that the
loop processes without an out-of-range access. -/
theorem groomEventFills_hist_sublist (bj : List FourVec → List PseudoJet)
    (tr : PseudoJet → PseudoJet) (s : Int) (e : GroomEvent) (fills : List GFill)
    (h : groomEventFills bj tr s e = some fills) :
    List.Sublist (fills.map GFill.hist)
      [GroomHist.mu, .npv, .ungroom_pt_nw, .ungroom_pt, .trimmed_pt, .ungroom_m, .trimmed_m,
       .myungroom_pt_nw, .myungroom_pt, .mytrimmed_pt_nw, .mytrimmed_pt] := by
  obtain ⟨f2, f3, h2, h3, rfl⟩ := groomEventFills_decomp bj tr s e fills h
  rw [List.map_append, List.map_append]
  have m1 := groomStep1Fills_hist_sublist s e
  have m2 := groomStep2Fills_hist_sublist s e f2 h2
  have m3 := groomStep3Fills_hist_sublist bj tr s e f3 h3
  exact List.Sublist.append (List.Sublist.append m1 m2) m3

/-- With an empty ungroomed collection, an event targets only the step-1 and
step-3 histograms. -/
theorem groomEventFills_hist_sublist_noungroom (bj : List FourVec → List PseudoJet)
    (tr : PseudoJet → PseudoJet) (s : Int) (e : GroomEvent) (fills : List GFill)
    (hu : e.jet_R10_ungroom_pt = []) (h : groomEventFills bj tr s e = some fills) :
    List.Sublist (fills.map GFill.hist)
      [GroomHist.mu, .npv,
       .myungroom_pt_nw, .myungroom_pt, .mytrimmed_pt_nw, .mytrimmed_pt] := by
  obtain ⟨f2, f3, h2, h3, rfl⟩ := groomEventFills_decomp bj tr s e fills h
  rw [groomStep2Fills_empty s e f2 hu h2]
  rw [List.map_append, List.map_append]
  have m1 := groomStep1Fills_hist_sublist s e
  have m3 := groomStep3Fills_hist_sublist bj tr s e f3 h3
  have m2 : List.Sublist (([] : List GFill).map GFill.hist) ([] : List GroomHist) := by simp
  simpa using List.Sublist.append (List.Sublist.append m1 m2) m3

/-- Changing only the event weight of a jetRecoExp event rewrites exactly
the weighted-fill weights of its fill list. -/
theorem expEventFills_reweight (s : Int) (e : ExpEvent) (w : ℚ) :
    expEventFills s { e with EventWeight := w } = (expEventFills s e).map (setEW w) := by
  obtain ⟨mu, npv, ew, rpt, a1, a2, a3, tpt, b1, b2, b3, c1, d1, d2, d3, d4⟩ := e
  by_cases h1 : stepGuard s 1 <;> by_cases h2 : stepGuard s 2 <;>
    cases rpt <;> cases tpt <;>
    simp [expEventFills, expStep1Fills, expStep2Fills, setEW, expWeightedHists, h1, h2]

/-- A fill with a name ending in _noweight stays in the noweight filter. -/
theorem noweightFillsE_cons_true (f : EFill) (l : List EFill)
    (hp : nameEndsWith (expHistName f.hist) "_noweight" = true) :
    noweightFillsE (f :: l) = f :: noweightFillsE l := by
  simp [noweightFillsE, List.filter_cons, hp]

/-- A fill with any other name drops out of the noweight filter. -/
theorem noweightFillsE_cons_false (f : EFill) (l : List EFill)
    (hp : nameEndsWith (expHistName f.hist) "_noweight" = false) :
    noweightFillsE (f :: l) = noweightFillsE l := by
  simp [noweightFillsE, List.filter_cons, hp]

/-- No weighted jetRecoExp histogram has a name ending in _noweight. -/
theorem expWeighted_not_noweight (h : ExpHist) (hw : h ∈ expWeightedHists) :
    nameEndsWith (expHistName h) "_noweight" = false := by
  simp only [expWeightedHists, List.mem_cons, List.mem_singleton] at hw
  rcases hw with rfl | hw
  · rfl
  · rcases hw with rfl | hw
    · rfl
    · cases hw

/-- The noweight fills ignore a weighted-fill weight replacement. -/
theorem noweightFillsE_map_setEW (w : ℚ) : ∀ l : List EFill,
    noweightFillsE (l.map (setEW w)) = noweightFillsE l := by
  intro l
  induction l with
  | nil => rfl
  | cons f l ih =>
    rw [List.map_cons]
    by_cases hw : f.hist ∈ expWeightedHists
    · have hp := expWeighted_not_noweight f.hist hw
      rw [setEW, if_pos hw, noweightFillsE_cons_false { f with w := w } _ hp,
        noweightFillsE_cons_false f _ hp, ih]
    · rw [setEW, if_neg hw]
      cases hp : nameEndsWith (expHistName f.hist) "_noweight" with
      | true => rw [noweightFillsE_cons_true _ _ hp, noweightFillsE_cons_true _ _ hp, ih]
      | false => rw [noweightFillsE_cons_false _ _ hp, noweightFillsE_cons_false _ _ hp, ih]

/-- No weighted jetRecoGroom histogram has a name ending in _noweight. -/
theorem groomWeighted_not_noweight (h : GroomHist) (hw : h ∈ groomWeightedHists) :
    nameEndsWith (groomHistName h) "_noweight" = false := by
  simp only [groomWeightedHists, List.mem_cons, List.mem_singleton] at hw
  rcases hw with rfl | rfl | rfl | rfl | rfl | rfl | hw
  · rfl
  · rfl
  · rfl
  · rfl
  · rfl
  · rfl
  · cases hw

/-- A groom fill with a name ending in _noweight stays in the filter. -/
theorem noweightFillsG_cons_true (f : GFill) (l : List GFill)
    (hp : nameEndsWith (groomHistName f.hist) "_noweight" = true) :
    noweightFillsG (f :: l) = f :: noweightFillsG l := by
  simp [noweightFillsG, List.filter_cons, hp]

/-- A groom fill with any other name drops out of the filter. -/
theorem noweightFillsG_cons_false (f : GFill) (l : List GFill)
    (hp : nameEndsWith (groomHistName f.hist) "_noweight" = false) :
    noweightFillsG (f :: l) = noweightFillsG l := by
  simp [noweightFillsG, List.filter_cons, hp]

/-- The groom noweight fills ignore a weighted-fill weight replacement. -/
theorem noweightFillsG_map_setGW (w : ℚ) : ∀ l : List GFill,
    noweightFillsG (l.map (setGW w)) = noweightFillsG l := by
  intro l
  induction l with
  | nil => rfl
  | cons f l ih =>
    rw [List.map_cons]
    by_cases hw : f.hist ∈ groomWeightedHists
    · have hp := groomWeighted_not_noweight f.hist hw
      rw [setGW, if_pos hw, noweightFillsG_cons_false { f with w := w } _ hp,
        noweightFillsG_cons_false f _ hp, ih]
    · rw [setGW, if_neg hw]
      cases hp : nameEndsWith (groomHistName f.hist) "_noweight" with
      | true => rw [noweightFillsG_cons_true _ _ hp, noweightFillsG_cons_true _ _ hp, ih]
      | false => rw [noweightFillsG_cons_false _ _ hp, noweightFillsG_cons_false _ _ hp, ih]

/-- The mass gate with a replaced weight produces the weight-replaced fills. -/
theorem massGateFill_reweight (t : GroomHist) (ht : t ∈ groomWeightedHists)
    (pt : ℚ) (ms : List ℚ) (w w0 : ℚ) :
    massGateFill t pt ms w = Option.map (List.map (setGW w)) (massGateFill t pt ms w0) := by
  unfold massGateFill
  split
  · cases ms.head? <;> simp [setGW, ht]
  · simp

/-- Changing only the event weight rewrites the step-1 fills through setGW
(they are unweighted, so they are unchanged). -/
theorem groomStep1Fills_reweight (s : Int) (e : GroomEvent) (w : ℚ) :
    groomStep1Fills s { e with EventWeight := w } =
      (groomStep1Fills s e).map (setGW w) := by
  by_cases hg : stepGuard s 1 <;>
    simp [groomStep1Fills, hg, setGW, groomWeightedHists]

/-- Changing only the event weight rewrites the step-2 fills through setGW. -/
theorem groomStep2Fills_reweight (s : Int) (e : GroomEvent) (w : ℚ) :
    groomStep2Fills s { e with EventWeight := w } =
      Option.map (List.map (setGW w)) (groomStep2Fills s e) := by
  obtain ⟨mu, npv, ew, upt, um, tpt, tm, cp, ce, cph, cm⟩ := e
  by_cases hg : stepGuard s 2
  case neg => simp [groomStep2Fills, hg]
  case pos =>
    cases upt
    case nil => simp [groomStep2Fills, hg]
    case cons upt0 rest =>
      unfold groomStep2Fills
      dsimp only
      rw [if_pos hg, if_pos hg]
      cases tpt
      case nil => rfl
      case cons tpt0 ttail =>
        dsimp only [List.head?]
        rw [massGateFill_reweight .ungroom_m (by decide) upt0 um w ew,
            massGateFill_reweight .trimmed_m (by decide) tpt0 tm w ew]
        cases massGateFill .ungroom_m upt0 um ew <;>
          cases massGateFill .trimmed_m tpt0 tm ew <;>
          simp [setGW, groomWeightedHists]

/-- Replacing the weight argument of the rebuilt-jet fills is the same as
rewriting the produced fills through setGW. -/
theorem leadingJetFills_reweight (tr : PseudoJet → PseudoJet) (w w0 : ℚ)
    (jets : List PseudoJet) :
    leadingJetFills tr w jets = (leadingJetFills tr w0 jets).map (setGW w) := by
  cases jets <;> simp [leadingJetFills, setGW, groomWeightedHists]

/-- Changing only the event weight rewrites the step-3 fills through setGW. -/
theorem groomStep3Fills_reweight (bj : List FourVec → List PseudoJet)
    (tr : PseudoJet → PseudoJet) (s : Int) (e : GroomEvent) (w : ℚ) :
    groomStep3Fills bj tr s { e with EventWeight := w } =
      Option.map (List.map (setGW w)) (groomStep3Fills bj tr s e) := by
  unfold groomStep3Fills
  have hcl : groomClusters { e with EventWeight := w } = groomClusters e := rfl
  rw [hcl]
  by_cases hg : stepGuard s 3
  · rw [if_pos hg, if_pos hg]
    cases groomClusters e
    · rfl
    · exact congrArg some (leadingJetFills_reweight tr w e.EventWeight _)
  · rw [if_neg hg, if_neg hg]
    rfl

/-- Changing only the event weight rewrites every fill through setGW. -/
theorem groomEventFills_reweight (bj : List FourVec → List PseudoJet)
    (tr : PseudoJet → PseudoJet) (s : Int) (e : GroomEvent) (w : ℚ) :
    groomEventFills bj tr s { e with EventWeight := w } =
      Option.map (List.map (setGW w)) (groomEventFills bj tr s e) := by
  unfold groomEventFills
  rw [groomStep2Fills_reweight, groomStep3Fills_reweight, groomStep1Fills_reweight]
  cases groomStep2Fills s e <;> cases groomStep3Fills bj tr s e <;>
    simp [List.map_append]

/-- Shape of a successful step-3 block of jetRecoGroom. -/
theorem groomStep3Fills_shape (bj : List FourVec → List PseudoJet)
    (tr : PseudoJet → PseudoJet) (s : Int) (e : GroomEvent) (f3 : List GFill)
    (h : groomStep3Fills bj tr s e = some f3) :
    f3 = [] ∨
    ∃ j : PseudoJet,
      f3 = [⟨.myungroom_pt_nw, j.pt, 1⟩, ⟨.myungroom_pt, j.pt, e.EventWeight⟩,
            ⟨.mytrimmed_pt_nw, (tr j).pt, 1⟩, ⟨.mytrimmed_pt, (tr j).pt, e.EventWeight⟩] := by
  unfold groomStep3Fills at h
  repeat' split at h
  all_goals (try (exact Option.noConfusion h))
  all_goals simp only [Option.some.injEq] at h
  all_goals subst h
  · generalize bj _ = jets
    cases jets
    · exact Or.inl rfl
    · exact Or.inr ⟨_, rfl⟩
  · exact Or.inl rfl

/-- The noweight filter distributes over concatenated fills. -/
theorem noweightFillsE_append (a b : List EFill) :
    noweightFillsE (a ++ b) = noweightFillsE a ++ noweightFillsE b := by
  simp [noweightFillsE]

/-- Step-1 fills never target a weighted histogram. -/
theorem expStep1Fills_not_weighted (e : ExpEvent) :
    ∀ f ∈ expStep1Fills e, f.hist ∉ expWeightedHists := by
  intro f hf
  simp only [expStep1Fills, List.mem_cons, List.not_mem_nil, or_false] at hf
  rcases hf with rfl | rfl | rfl <;> simp [expWeightedHists]

/-- Every weighted step-2 fill carries the event weight. -/
theorem expStep2Fills_weighted_weight (e : ExpEvent) :
    ∀ f ∈ expStep2Fills e, f.hist ∈ expWeightedHists → f.w = e.EventWeight := by
  intro f hf hw
  unfold expStep2Fills at hf
  rcases List.mem_append.mp hf with hf | hf
  · cases hr : e.RecoJet_pt with
    | nil => rw [hr] at hf; simp at hf
    | cons p ps =>
      rw [hr] at hf
      simp only [List.mem_cons, List.not_mem_nil, or_false] at hf
      rcases hf with rfl | rfl
      · simp [expWeightedHists] at hw
      · rfl
  · cases hr : e.TruthJet_pt with
    | nil => rw [hr] at hf; simp at hf
    | cons p ps =>
      rw [hr] at hf
      simp only [List.mem_cons, List.not_mem_nil, or_false] at hf
      rcases hf with rfl | rfl
      · simp [expWeightedHists] at hw
      · rfl

/-- Every weighted fill of a jetRecoExp event carries the event weight. -/
theorem expEventFills_weighted_weight (s : Int) (e : ExpEvent) :
    ∀ f ∈ expEventFills s e, f.hist ∈ expWeightedHists → f.w = e.EventWeight := by
  intro f hf hw
  unfold expEventFills at hf
  simp only [List.mem_append] at hf
  rcases hf with ((((hf | hf) | hf) | hf) | hf)
  · split at hf
    · exact absurd hw (expStep1Fills_not_weighted e f hf)
    · simp at hf
  · split at hf
    · exact expStep2Fills_weighted_weight e f hf hw
    · simp at hf
  · split at hf <;> simp at hf
  · split at hf <;> simp at hf
  · split at hf <;> simp at hf

/-- Every weighted fill of a jetRecoGroom event carries the event weight. -/
theorem groomEventFills_weighted_weight (bj : List FourVec → List PseudoJet)
    (tr : PseudoJet → PseudoJet) (s : Int) (e : GroomEvent) (fills : List GFill)
    (h : groomEventFills bj tr s e = some fills) :
    ∀ f ∈ fills, f.hist ∈ groomWeightedHists → f.w = e.EventWeight := by
  obtain ⟨f2, f3, h2, h3, rfl⟩ := groomEventFills_decomp bj tr s e fills h
  intro f hf hw
  simp only [List.mem_append] at hf
  rcases hf with (hf | hf) | hf
  · unfold groomStep1Fills at hf
    split at hf
    · simp only [List.mem_cons, List.not_mem_nil, or_false] at hf
      rcases hf with rfl | rfl <;> simp [groomWeightedHists] at hw
    · simp at hf
  · rcases groomStep2Fills_shape s e f2 h2 with ⟨rfl, _⟩ |
      ⟨u, r, t, mU, mT, _, _, hmu, hmt, rfl⟩
    · simp at hf
    · simp only [List.append_assoc, List.mem_append, List.mem_cons,
        List.not_mem_nil, or_false] at hf
      rcases hf with (rfl | rfl | rfl) | hf | hf
      · simp [groomWeightedHists] at hw
      · rfl
      · rfl
      · rcases massGateFill_shape _ _ _ _ _ hmu with ⟨rfl, _⟩ | ⟨m0, rfl, _⟩
        · simp at hf
        · simp only [List.mem_singleton] at hf
          subst hf
          rfl
      · rcases massGateFill_shape _ _ _ _ _ hmt with ⟨rfl, _⟩ | ⟨m1, rfl, _⟩
        · simp at hf
        · simp only [List.mem_singleton] at hf
          subst hf
          rfl
  · rcases groomStep3Fills_shape bj tr s e f3 h3 with rfl | ⟨j, rfl⟩
    · simp at hf
    · simp only [List.mem_cons, List.not_mem_nil, or_false] at hf
      rcases hf with rfl | rfl | rfl | rfl
      · simp [groomWeightedHists] at hw
      · rfl
      · simp [groomWeightedHists] at hw
      · rfl

/-- A fill count is zero for any histogram outside the target master list. -/
theorem fillCountE_eq_zero_of_sublist (l : List EFill) (master : List ExpHist)
    (h : ExpHist) (hsub : List.Sublist (l.map EFill.hist) master) (hmem : h ∉ master) :
    fillCountE l h = 0 := by
  unfold fillCountE
  rw [filter_key_eq_nil_of_not_mem EFill.hist l h (fun hm => hmem (hsub.subset hm))]
  rfl

/-- A jetRecoGroom fill count is zero outside the target master list. -/
theorem fillCountG_eq_zero_of_sublist (l : List GFill) (master : List GroomHist)
    (h : GroomHist) (hsub : List.Sublist (l.map GFill.hist) master) (hmem : h ∉ master) :
    fillCountG l h = 0 := by
  unfold fillCountG
  rw [filter_key_eq_nil_of_not_mem GFill.hist l h (fun hm => hmem (hsub.subset hm))]
  rfl

/-! ## Claim theorems -/

/-- Claim C8: the MeV-to-GeV rescaling of both plots programs leaves the bin
contents, the bin count and the name of a histogram unchanged, and replaces
only the lower and upper axis limits by their values divided by 1000. -/
theorem C8_thm : ∀ hist : TH1,
    (scaleMeVToGeV hist).binContents = hist.binContents ∧
    (scaleMeVToGeV hist).nbins = hist.nbins ∧
    (scaleMeVToGeV hist).name = hist.name ∧
    (scaleMeVToGeV hist).xmin = hist.xmin / 1000 ∧
    (scaleMeVToGeV hist).xmax = hist.xmax / 1000 :=
  fun _ => ⟨rfl, rfl, rfl, rfl, rfl⟩

/-- Claim C10: the normalization idiom Scale of 1 divided by Integral, which
both plots programs apply with no guard, is well defined whenever the
histogram integral is nonzero: the divisor is then nonzero and the scaled
histogram has unit integral. -/
theorem C10_thm : ∀ hist : TH1, integral hist ≠ 0 →
    integral (normalizeToUnitIntegral hist) = 1 := by
  intro hist h
  unfold normalizeToUnitIntegral scaleHist integral at *
  rw [list_sum_map_mul]
  field_simp

/-- Witness for C10 on a concrete histogram with integral 5. -/
theorem C10_witness : integral (normalizeToUnitIntegral witnessHist) = 1 :=
  C10_thm witnessHist (by norm_num [integral, witnessHist])

/-- Claim C9: the step argument abc parses to 0 through atol in all four
programs, 0 passes the range validation, and a step number of 0 activates
every stage of every program: the fill and write blocks of both reco
programs and the render blocks of both plots programs. -/
theorem C9_thm :
    atol "abc" = 0 ∧
    ¬ stepNumRejected (atol "abc") ∧
    expFillStages (atol "abc") = [1, 2, 3, 4, 5] ∧
    expWriteStages (atol "abc") = [1, 2, 3, 4, 5] ∧
    groomFillStages (atol "abc") = [1, 2, 3, 4, 5] ∧
    groomWriteStages (atol "abc") = [1, 2, 3, 4, 5] ∧
    expPlotsRenderStages (atol "abc") = [1, 2, 3, 4, 5] ∧
    groomPlotsRenderStages (atol "abc") = [1, 2, 3, 4, 5] := by
  decide

/-- Claim C5 evaluation: running jetRecoExp at step 5 on the synthetic
single-event input of the end-to-end scenario fills only the step-1 and
step-2 histograms; the step-5 fill block is an unimplemented TODO stub, so
neither the truth-reco separation histogram nor any response histogram
receives a fill, contrary to the specified scenario. -/
theorem C5_thm :
    (expEventFills 5 scenarioEvent).map (fun f => expHistName f.hist) =
      ["Step1_mu", "Step1_npv", "Step1_mu_npv",
       "Step2_RecoJet_pt_noweight", "Step2_RecoJet_pt",
       "Step2_TruthJet_pt_noweight", "Step2_TruthJet_pt"] := by
  decide

/-- Claim C2 evaluation: a jetRecoExp_plots run at step 4 whose input holds
every required histogram except Step4_RecoJet_pt_jvf does not take the exit
code 1 path of the retrieval checks (the stage-4 check omits that pointer);
it reaches the rendering phase and dereferences the null pointer there.
With the complete histogram set the same run completes. -/
theorem C2_eval :
    expPlotsMain 4 presentMissingPtJvf = PlotsOutcome.crash ∧
    expPlotsMain 4 presentMissingPtJvf ≠ PlotsOutcome.exitMissing ∧
    expPlotsMain 4 expAllHistNames = PlotsOutcome.completed := by
  decide

/-- Claim C1: in jetRecoExp, for every requested step number in 0..5 and
every stage k in 1..5, the stage-k fill block and the stage-k write block
execute iff the requested step is 0 or at least k; the branch-wiring blocks
(stages 1, 2 and 4 are the only ones that wire branches) obey the same
guard; and a step number outside 0..5 makes main return exit code 1 before
any wiring, creation, filling or writing. -/
theorem C1_thm :
    (∀ s : Int, 0 ≤ s → s ≤ 5 → ∀ k : Int, 1 ≤ k → k ≤ 5 →
      ((k ∈ expBranchStages s ↔ ((k = 1 ∨ k = 2 ∨ k = 4) ∧ (s = 0 ∨ k ≤ s))) ∧
       (k ∈ expFillStages s ↔ (s = 0 ∨ k ≤ s)) ∧
       (k ∈ expWriteStages s ↔ (s = 0 ∨ k ≤ s)))) ∧
    (∀ s : Int, stepNumRejected s → jetRecoExpPlan s = none) := by
  constructor
  · intro s hs0 hs5 k hk1 hk5
    interval_cases s <;> interval_cases k <;> exact ⟨by decide, by decide, by decide⟩
  · intro s hs
    unfold jetRecoExpPlan
    rw [if_pos hs]

/-- Witness for C1: at step 3 the stage-2 fill block runs, and step 6 is
rejected before processing. -/
theorem C1_witness :
    ((2 : Int) ∈ expFillStages 3 ↔ ((3 : Int) = 0 ∨ (2 : Int) ≤ 3)) ∧
    jetRecoExpPlan 6 = none :=
  ⟨(C1_thm.1 3 (by decide) (by decide) 2 (by decide) (by decide)).2.1,
   C1_thm.2 6 (by decide)⟩

/-- Claim C4 counterexample: at requested step 1 (a valid run), the stage-2
histogram Step2_RecoJet_pt is among the histograms the run constructs, even
though stage 2 is beyond the requested depth and its stage guard is false;
creation is unconditional and only the write is skipped. -/
theorem C4_counterexample :
    ((jetRecoExpPlan 1).map ExpPlan.createdHists).getD [] = expAllHistNames ∧
    "Step2_RecoJet_pt" ∈ expAllHistNames ∧
    "Step2_RecoJet_pt" ∈ expStageHistNames 2 ∧
    ¬ stepGuard (1 : Int) 2 ∧
    "Step2_RecoJet_pt" ∉ expWrittenHists 1 := by
  decide

/-- Claim C4 as amended: for every requested step s in 1..5 and stage k
beyond s, no column wired only by stage k is activated and no stage-k
histogram is written, in either reco program; the stage-k histogram objects
are nevertheless constructed (creation carries no stage guard). -/
theorem C4_thm : ∀ s k : Int, 1 ≤ s → s ≤ 5 → s < k → k ≤ 5 →
    ((∀ n ∈ expStageBranchNames k, n ∉ expActiveBranches s) ∧
     (∀ n ∈ expStageHistNames k, n ∉ expWrittenHists s) ∧
     (∀ n ∈ expStageHistNames k, n ∈ expAllHistNames) ∧
     (∀ n ∈ groomStageBranchNames k, n ∉ groomActiveBranches s) ∧
     (∀ n ∈ groomStageHistNames k, n ∉ groomWrittenHists s) ∧
     (∀ n ∈ groomStageHistNames k, n ∈ groomAllHistNames)) := by
  intro s k hs1 hs5 hsk hk5
  interval_cases s <;> interval_cases k <;> decide

/-- Witness for C4 at step 2 and stage 4: the track-jet column is not
activated and the Step4 track pT histogram is not written. -/
theorem C4_witness :
    "TrackJets_R4_pt" ∉ expActiveBranches 2 ∧
    "Step4_TrackJet_pt" ∉ expWrittenHists 2 :=
  ⟨(C4_thm 2 4 (by decide) (by decide) (by decide) (by decide)).1
     "TrackJets_R4_pt" (by decide),
   ((C4_thm 2 4 (by decide) (by decide) (by decide) (by decide)).2.1)
     "Step4_TrackJet_pt" (by decide)⟩

/-- Claim C3: in both reco programs, each histogram receives at most one
fill per event, and an empty collection contributes no fill: an empty reco
or truth collection leaves its jetRecoExp step-2 histograms untouched, and
an empty ungroomed collection leaves all jetRecoGroom step-2 histograms
untouched (no zero-value fill is made in either case). -/
theorem C3_thm :
    (∀ (s : Int) (e : ExpEvent) (h : ExpHist), fillCountE (expEventFills s e) h ≤ 1) ∧
    (∀ (s : Int) (e : ExpEvent), e.RecoJet_pt = [] →
      fillCountE (expEventFills s e) .reco_pt_nw = 0 ∧
      fillCountE (expEventFills s e) .reco_pt = 0) ∧
    (∀ (s : Int) (e : ExpEvent), e.TruthJet_pt = [] →
      fillCountE (expEventFills s e) .truth_pt_nw = 0 ∧
      fillCountE (expEventFills s e) .truth_pt = 0) ∧
    (∀ (bj : List FourVec → List PseudoJet) (tr : PseudoJet → PseudoJet)
       (s : Int) (e : GroomEvent) (fills : List GFill),
      groomEventFills bj tr s e = some fills →
      (∀ h : GroomHist, fillCountG fills h ≤ 1) ∧
      (e.jet_R10_ungroom_pt = [] →
        fillCountG fills .ungroom_pt_nw = 0 ∧ fillCountG fills .ungroom_pt = 0 ∧
        fillCountG fills .trimmed_pt = 0 ∧ fillCountG fills .ungroom_m = 0 ∧
        fillCountG fills .trimmed_m = 0)) := by
  refine ⟨?_, ?_, ?_, ?_⟩
  · intro s e h
    exact length_filter_key_le_one EFill.hist _
      ((expEventFills_hist_sublist s e).nodup (by decide)) h
  · intro s e hr
    exact ⟨fillCountE_eq_zero_of_sublist _ _ _
             (expEventFills_hist_sublist_noreco s e hr) (by decide),
           fillCountE_eq_zero_of_sublist _ _ _
             (expEventFills_hist_sublist_noreco s e hr) (by decide)⟩
  · intro s e ht
    exact ⟨fillCountE_eq_zero_of_sublist _ _ _
             (expEventFills_hist_sublist_notruth s e ht) (by decide),
           fillCountE_eq_zero_of_sublist _ _ _
             (expEventFills_hist_sublist_notruth s e ht) (by decide)⟩
  · intro bj tr s e fills hf
    constructor
    · intro h
      exact length_filter_key_le_one GFill.hist _
        ((groomEventFills_hist_sublist bj tr s e fills hf).nodup (by decide)) h
    · intro hu
      have hsub := groomEventFills_hist_sublist_noungroom bj tr s e fills hu hf
      exact ⟨fillCountG_eq_zero_of_sublist _ _ _ hsub (by decide),
             fillCountG_eq_zero_of_sublist _ _ _ hsub (by decide),
             fillCountG_eq_zero_of_sublist _ _ _ hsub (by decide),
             fillCountG_eq_zero_of_sublist _ _ _ hsub (by decide),
             fillCountG_eq_zero_of_sublist _ _ _ hsub (by decide)⟩

/-- Witness for C3 on an event with no reco jets: the weighted reco-pT
histogram receives nothing and the truth-pT histogram at most one fill. -/
theorem C3_witness :
    fillCountE (expEventFills 0 emptyRecoEvent) ExpHist.reco_pt = 0 ∧
    fillCountE (expEventFills 0 emptyRecoEvent) ExpHist.truth_pt ≤ 1 :=
  ⟨(C3_thm.2.1 0 emptyRecoEvent rfl).2, C3_thm.1 0 emptyRecoEvent .truth_pt⟩

/-- Claim C6: in an active stage-2 block of jetRecoGroom with a non-empty
ungroomed collection, the ungroomed mass histogram is filled exactly once
iff the leading ungroomed pT is strictly above 400000 (400 GeV in MeV) and
not at all otherwise, and likewise the trimmed mass histogram against the
leading trimmed pT; a leading jet at exactly 400000 yields no mass fill. -/
theorem C6_thm : ∀ (s : Int) (e : GroomEvent) (f2 : List GFill) (upt0 : ℚ)
    (rest : List ℚ),
    stepGuard s 2 →
    e.jet_R10_ungroom_pt = upt0 :: rest →
    groomStep2Fills s e = some f2 →
    ((fillCountG f2 .ungroom_m = 1 ↔ (400000 : ℚ) < upt0) ∧
     (fillCountG f2 .ungroom_m = 0 ↔ ¬ (400000 : ℚ) < upt0) ∧
     (∀ tpt0 : ℚ, e.jet_R10_trimmed_pt.head? = some tpt0 →
       ((fillCountG f2 .trimmed_m = 1 ↔ (400000 : ℚ) < tpt0) ∧
        (fillCountG f2 .trimmed_m = 0 ↔ ¬ (400000 : ℚ) < tpt0)))) := by
  intro s e f2 upt0 rest hg hu h
  rcases groomStep2Fills_shape s e f2 h with ⟨rfl, hc⟩ |
    ⟨u, r, t, mU, mT, hu2, ht, hmu, hmt, rfl⟩
  · rcases hc with hng | hemp
    · exact absurd hg hng
    · rw [hu] at hemp; exact List.noConfusion hemp
  · rw [hu] at hu2
    injection hu2 with h1 _
    subst h1
    refine ⟨?_, ?_, ?_⟩
    · rcases massGateFill_shape _ _ _ _ _ hmu with ⟨rfl, hltU⟩ | ⟨m0, rfl, hltU⟩ <;>
        rcases massGateFill_shape _ _ _ _ _ hmt with ⟨rfl, hltT⟩ | ⟨m1, rfl, hltT⟩ <;>
        simp [fillCountG, hltU]
    · rcases massGateFill_shape _ _ _ _ _ hmu with ⟨rfl, hltU⟩ | ⟨m0, rfl, hltU⟩ <;>
        rcases massGateFill_shape _ _ _ _ _ hmt with ⟨rfl, hltT⟩ | ⟨m1, rfl, hltT⟩ <;>
        simp [fillCountG, hltU]
    · intro tpt0 htp
      rw [ht] at htp
      injection htp with h3
      subst h3
      rcases massGateFill_shape _ _ _ _ _ hmu with ⟨rfl, hltU⟩ | ⟨m0, rfl, hltU⟩ <;>
        rcases massGateFill_shape _ _ _ _ _ hmt with ⟨rfl, hltT⟩ | ⟨m1, rfl, hltT⟩ <;>
        constructor <;> simp [fillCountG, hltT]

/-- Witness for C6 on the boundary event: the 500 GeV ungroomed jet fills
its mass histogram once, the trimmed jet at exactly 400 GeV fills nothing. -/
theorem C6_witness :
    ((fillCountG boundaryFills .ungroom_m = 1 ↔ (400000 : ℚ) < 500000) ∧
     (fillCountG boundaryFills .ungroom_m = 0 ↔ ¬ (400000 : ℚ) < 500000) ∧
     (∀ tpt0 : ℚ, groomBoundaryEvent.jet_R10_trimmed_pt.head? = some tpt0 →
       ((fillCountG boundaryFills .trimmed_m = 1 ↔ (400000 : ℚ) < tpt0) ∧
        (fillCountG boundaryFills .trimmed_m = 0 ↔ ¬ (400000 : ℚ) < tpt0)))) :=
  C6_thm 2 groomBoundaryEvent boundaryFills 500000 [] (by decide) rfl
    (by norm_num [groomStep2Fills, massGateFill, groomBoundaryEvent, stepGuard,
      boundaryFills])

/-- Claim C7: the weight is a per-event uniform multiplier.  Replacing the
EventWeight column of every event by an arbitrary function leaves the run
contents of every histogram whose name ends in _noweight unchanged, for the
jetRecoExp run and for each groom event (both the crash behavior and the
noweight fills agree); and within one event every fill into a weighted
histogram of either program carries exactly that event's weight. -/
theorem C7_thm :
    (∀ (s : Int) (es : List ExpEvent) (wf : ExpEvent → ℚ),
      noweightFillsE (expRunFills s (es.map (reweightExp wf))) =
        noweightFillsE (expRunFills s es)) ∧
    (∀ (s : Int) (e : ExpEvent), ∀ f ∈ expEventFills s e,
      f.hist ∈ expWeightedHists → f.w = e.EventWeight) ∧
    (∀ (bj : List FourVec → List PseudoJet) (tr : PseudoJet → PseudoJet)
      (s : Int) (e : GroomEvent) (w : ℚ),
      Option.map noweightFillsG (groomEventFills bj tr s { e with EventWeight := w }) =
        Option.map noweightFillsG (groomEventFills bj tr s e)) ∧
    (∀ (bj : List FourVec → List PseudoJet) (tr : PseudoJet → PseudoJet)
      (s : Int) (e : GroomEvent) (fills : List GFill),
      groomEventFills bj tr s e = some fills →
      ∀ f ∈ fills, f.hist ∈ groomWeightedHists → f.w = e.EventWeight) := by
  refine ⟨?_, expEventFills_weighted_weight, ?_, groomEventFills_weighted_weight⟩
  · intro s es wf
    induction es with
    | nil => rfl
    | cons e es ih =>
      rw [List.map_cons]
      simp only [expRunFills]
      rw [noweightFillsE_append, noweightFillsE_append, ih]
      congr 1
      rw [show reweightExp wf e = { e with EventWeight := wf e } from rfl,
        expEventFills_reweight, noweightFillsE_map_setEW]
  · intro bj tr s e w
    rw [groomEventFills_reweight]
    cases groomEventFills bj tr s e
    · rfl
    · exact congrArg some (noweightFillsG_map_setGW w _)

/-- Witness for C7: reweighting the scenario event leaves the noweight
contents of a step-2 run unchanged, and the weighted truth-pT fill of the
scenario event carries its weight 2. -/
theorem C7_witness :
    (noweightFillsE (expRunFills 2 ([scenarioEvent].map (reweightExp (fun _ => 7)))) =
      noweightFillsE (expRunFills 2 [scenarioEvent])) ∧
    (⟨ExpHist.truth_pt, 50000, none, 2⟩ : EFill).w = scenarioEvent.EventWeight :=
  ⟨C7_thm.1 2 [scenarioEvent] (fun _ => 7),
   C7_thm.2.1 2 scenarioEvent ⟨.truth_pt, 50000, none, 2⟩
     (by simp [expEventFills, expStep1Fills, expStep2Fills, scenarioEvent, stepGuard])
     (by simp [expWeightedHists])⟩

end JetReco
